import Mathlib

/-!
Shallow embedding of the StatProj pipeline (src/data_transformer.py,
src/analyzer.py): GDP-cell cleaning, wide-to-long melting, inner join,
year filtering, and the statistical entry points, together with theorems
checking the specification's claims against these definitions.

Numeric cells are modelled as exact rationals; a Python float NaN and an
absent cell are both rendered as `none`.  Python `float(s)` is modelled
for finite decimal literals with optional sign, decimal point and
exponent; the `inf`/`nan` words and digit underscores accepted by CPython
are outside the modelled fragment.  Rationals are carried by the
executable type `Qv` below (normalized numerator/denominator pairs), so
that every pipeline function evaluates by kernel reduction.
-/

namespace StatProj

/-- Exact rational value: normalized numerator/denominator pair with a
positive denominator.  Values are only built through `qNorm` and the
arithmetic below, which keep the representation normalized, so structural
equality of `Qv` is value equality. -/
structure Qv where
  num : ℤ
  den : ℕ
  deriving DecidableEq

/-- Normalize a fraction with positive denominator by the gcd. -/
def qNorm (n : ℤ) (d : ℕ) : Qv :=
  if d = 0 then ⟨0, 1⟩
  else
    let g := Nat.gcd n.natAbs d
    ⟨n / (g : ℤ), d / g⟩

/-- Embed an integer. -/
def qInt (n : ℤ) : Qv := ⟨n, 1⟩

def qAdd (a b : Qv) : Qv := qNorm (a.num * (b.den : ℤ) + b.num * (a.den : ℤ)) (a.den * b.den)

def qNeg (a : Qv) : Qv := ⟨-a.num, a.den⟩

def qSub (a b : Qv) : Qv := qAdd a (qNeg b)

def qMul (a b : Qv) : Qv := qNorm (a.num * b.num) (a.den * b.den)

/-- Division; division by zero yields zero (never exercised by the
pipeline). -/
def qDiv (a b : Qv) : Qv :=
  if b.num = 0 then ⟨0, 1⟩
  else qNorm (a.num * (b.den : ℤ) * (if b.num < 0 then -1 else 1)) (a.den * b.num.natAbs)

/-- Strict order as a boolean (denominators are positive). -/
def qLtB (a b : Qv) : Bool := a.num * (b.den : ℤ) < b.num * (a.den : ℤ)

example : qAdd (qInt 2) (qInt 3) = qInt 5 := by decide
example : qMul (qDiv (qInt 277) (qInt 10)) (qInt 1000) = qInt 27700 := by decide
example : qSub (qDiv (qInt 151) (qInt 2)) (qInt 75) = qDiv (qInt 1) (qInt 2) := by decide
example : qLtB (qInt 0) (qDiv (qInt 1) (qInt 2)) = true := by decide
example : qLtB (qInt 1) (qInt 1) = false := by decide
example : qDiv (qInt 1) (qNeg (qInt 2)) = ⟨-1, 2⟩ := by decide

/-- Characters stripped as surrounding whitespace by Python str.strip()
and float() (the ASCII whitespace set). -/
def isPySpace (c : Char) : Bool :=
  c == ' ' || c == '\t' || c == '\n' || c == '\r' || c == '\x0b' || c == '\x0c'

/-- Python str.strip() over a character list. -/
def pyStrip (l : List Char) : List Char :=
  ((l.dropWhile isPySpace).reverse.dropWhile isPySpace).reverse

/-- Python s.replace(",", ""). -/
def removeCommas (l : List Char) : List Char :=
  l.filter fun c => c != ','

/-- Python s.endswith(("k", "K")). -/
def endsWithK (l : List Char) : Bool :=
  match l.getLast? with
  | some c => c == 'k' || c == 'K'
  | none => false

/-- Value of a digit string, most significant first. -/
def digitsToNat (l : List Char) : ℕ :=
  l.foldl (fun a c => 10 * a + (c.toNat - '0'.toNat)) 0

/-- Powers of ten, natural exponent. -/
def pow10N : ℕ → Qv
  | 0 => qInt 1
  | n + 1 => qMul (qInt 10) (pow10N n)

/-- Powers of ten, integer exponent. -/
def pow10Z (e : ℤ) : Qv :=
  if 0 ≤ e then pow10N e.toNat else qDiv (qInt 1) (pow10N (-e).toNat)

/-- Optional leading sign of a numeric literal. -/
def parseSign : List Char → ℤ × List Char
  | '+' :: t => (1, t)
  | '-' :: t => (-1, t)
  | l => (1, l)

/-- Trailing exponent part of a Python float literal: either empty, or
e/E followed by an optional sign and a nonempty digit run ending the
string. -/
def parseExpPart (l : List Char) : Option ℤ :=
  match l with
  | [] => some 0
  | c :: t =>
    if c == 'e' || c == 'E' then
      let st := parseSign t
      let ds := st.2.span Char.isDigit
      if ds.1 ≠ [] ∧ ds.2 = [] then some (st.1 * (digitsToNat ds.1 : ℤ)) else none
    else none

/-- Grammar of a Python float literal after whitespace stripping:
[sign] (digits [. digits] | . digits) [exponent]; at least one mantissa
digit is required. -/
def pyFloatCore (l : List Char) : Option Qv :=
  let sl := parseSign l
  let ip := sl.2.span Char.isDigit
  match ip.2 with
  | '.' :: r =>
    let fp := r.span Char.isDigit
    if ip.1 = [] ∧ fp.1 = [] then none
    else
      match parseExpPart fp.2 with
      | none => none
      | some e =>
        some (qMul (qMul (qInt sl.1) (qDiv (qInt (digitsToNat (ip.1 ++ fp.1) : ℤ)) (pow10N fp.1.length))) (pow10Z e))
  | rest =>
    if ip.1 = [] then none
    else
      match parseExpPart rest with
      | none => none
      | some e => some (qMul (qMul (qInt sl.1) (qInt (digitsToNat ip.1 : ℤ))) (pow10Z e))

/-- Python float(s): strip surrounding whitespace, then parse; `none`
models the ValueError raised on an unparsable string. -/
def pyFloat (l : List Char) : Option Qv :=
  pyFloatCore (pyStrip l)

/-- DataTransformer.clean_gdp_cell.  The input is `none` for an
absent/NaN cell (pd.isna) and `some s` for a string cell; the output is
`none` for the NaN ("missing") result.  Mirrors the source: strip, check
the k/K suffix, drop it, remove commas, strip, parse, multiply by 1000 in
the suffix branch; otherwise remove commas, strip, parse directly; every
parse failure yields missing. -/
def cleanGdpCell : Option String → Option Qv
  | none => none
  | some v =>
    let s := pyStrip v.data
    if endsWithK s then
      let numStr := pyStrip (removeCommas s.dropLast)
      match pyFloat numStr with
      | some q => some (qMul q (qInt 1000))
      | none => none
    else
      let numStr := pyStrip (removeCommas s)
      match pyFloat numStr with
      | some q => some q
      | none => none

/-- The numeric substring that clean_gdp_cell hands to float(), per
branch. -/
def gdpNumStr (v : String) : List Char :=
  let s := pyStrip v.data
  if endsWithK s then pyStrip (removeCommas s.dropLast)
  else pyStrip (removeCommas s)

/-- Python-level exceptions relevant to the pipeline. -/
inductive PyErr
  | valueError
  | insufficientData
  deriving DecidableEq

/-- Exception-explicit rendering of clean_gdp_cell: each float() call may
raise (`Except.error`), and the try/except around it converts the
ValueError into the NaN result.  A returned `Except.ok` means the Python
function returned normally. -/
def cleanGdpCellE : Option String → Except PyErr (Option Qv)
  | none => .ok none
  | some v =>
    let s := pyStrip v.data
    if endsWithK s then
      match pyFloat (pyStrip (removeCommas s.dropLast)) with
      | some q => .ok (some (qMul q (qInt 1000)))
      | none => .ok none
    else
      match pyFloat (pyStrip (removeCommas s)) with
      | some q => .ok (some q)
      | none => .ok none

def s27k : String := "27.7k"
def s5380 : String := "5380"
def sComma : String := "1,234"
def s12K : String := "1.2K"
def sEmpty : String := ""
def sAbc : String := "abc"

example : cleanGdpCell (some s27k) = some (qInt 27700) := by decide
example : cleanGdpCell (some s5380) = some (qInt 5380) := by decide
example : cleanGdpCell (some sComma) = some (qInt 1234) := by decide
example : cleanGdpCell (some s12K) = some (qInt 1200) := by decide
example : cleanGdpCell (some sEmpty) = none := by decide
example : cleanGdpCell (some sAbc) = none := by decide
example : cleanGdpCell none = none := by decide

/-- One row of a long table: (country, year, value). -/
structure LongRecord where
  country : String
  year : ℤ
  value : Qv
  deriving DecidableEq

/-- One row of the merged table produced by DataTransformer.merge_datasets. -/
structure MergedRecord where
  country : String
  year : ℤ
  life_expectancy : Qv
  gdp_per_capita : Qv
  deriving DecidableEq

/-- Analyzer.filter_2020_data: the four successive row filters of the
source, in order — year == 2020, gdp_per_capita > 0 and
life_expectancy > 0, life_expectancy > 10, gdp_per_capita < 1e6. -/
def filter_2020_data (df : List MergedRecord) : List MergedRecord :=
  let df1 := df.filter fun r => r.year == 2020
  let df2 := df1.filter fun r => qLtB (qInt 0) r.gdp_per_capita && qLtB (qInt 0) r.life_expectancy
  let df3 := df2.filter fun r => qLtB (qInt 10) r.life_expectancy
  df3.filter fun r => qLtB r.gdp_per_capita (qInt 1000000)

/-- DataTransformer.merge_datasets: inner join on (country, year), left
rows in order, each matched against the right rows in order (pandas
inner-merge content). -/
def merge_datasets (life_long gdp_long : List LongRecord) : List MergedRecord :=
  life_long.flatMap fun a =>
    (gdp_long.filter fun b => b.country == a.country && b.year == a.year).map fun b =>
      ⟨a.country, a.year, a.value, b.value⟩

def keysOfLong (l : List LongRecord) : List (String × ℤ) :=
  l.map fun r => (r.country, r.year)

def keysOfMerged (l : List MergedRecord) : List (String × ℤ) :=
  l.map fun r => (r.country, r.year)

/-- A wide table: one column label per year and rows of
(country, cells), the cell at index i belonging to the i-th year
column; `none` is an absent (NaN) cell. -/
structure WideTable (α : Type) where
  yearCols : List String
  rows : List (String × List (Option α))

/-- Cells of pd.melt(id_vars="country"): column-major enumeration of
(country, year-label, cell). -/
def meltPairs {α : Type} (t : WideTable α) : List (String × String × Option α) :=
  t.yearCols.enum.flatMap fun p => t.rows.map fun r => (r.1, p.2, r.2.getD p.1 none)

/-- Python int(s) on a string label (as run by astype(int) on the melted
year column). -/
def parsePyInt (l : List Char) : Option ℤ :=
  let t := pyStrip l
  let st := parseSign t
  if st.2 ≠ [] ∧ st.2.all Char.isDigit then some (st.1 * (digitsToNat st.2 : ℤ)) else none

/-- astype(int) over the year components of the melted cells: any
unparsable year label raises (ParseError at the Python level, a
ValueError here). -/
def toYearRows {α : Type} : List (String × String × Option α) → Except PyErr (List (String × ℤ × Option α))
  | [] => .ok []
  | c :: t =>
    match parsePyInt c.2.1.data with
    | none => .error .valueError
    | some y =>
      match toYearRows t with
      | .error e => .error e
      | .ok r => .ok ((c.1, y, c.2.2) :: r)

/-- DataTransformer.melt_life_expectancy: melt, year astype(int), then
dropna on the value. -/
def melt_life_expectancy (t : WideTable Qv) : Except PyErr (List LongRecord) :=
  match toYearRows (meltPairs t) with
  | .error e => .error e
  | .ok l => .ok (l.filterMap fun c => c.2.2.map fun v => ⟨c.1, c.2.1, v⟩)

/-- DataTransformer.melt_gdp_per_capita: melt, year astype(int), apply
clean_gdp_cell to every cell, then dropna on the cleaned value. -/
def melt_gdp_per_capita (t : WideTable String) : Except PyErr (List LongRecord) :=
  match toYearRows (meltPairs t) with
  | .error e => .error e
  | .ok l => .ok (l.filterMap fun c => (cleanGdpCell c.2.2).map fun v => ⟨c.1, c.2.1, v⟩)

/-- Number of non-missing cells of a life-expectancy wide table. -/
def lifePresentCount (t : WideTable Qv) : ℕ :=
  ((meltPairs t).filter fun c => c.2.2.isSome).length

/-- Number of non-missing cells of a GDP wide table, where (per the
data model of the spec) a GDP cell is missing exactly when
clean_gdp_cell maps it to missing. -/
def gdpPresentCount (t : WideTable String) : ℕ :=
  ((meltPairs t).filter fun c => (cleanGdpCell c.2.2).isSome).length

/-- Sum of a list of rationals. -/
def listSum : List Qv → Qv
  | [] => qInt 0
  | a :: t => qAdd a (listSum t)

def qOfNat (n : ℕ) : Qv := ⟨(n : ℤ), 1⟩

/-- np.mean. -/
def listMean (l : List Qv) : Qv := qDiv (listSum l) (qOfNat l.length)

/-- The (x == x[0]).all() constant-column check of scipy.stats.pearsonr. -/
def allEqHead : List Qv → Bool
  | [] => true
  | a :: t => t.all fun x => x == a

/-- Observable outcome of a normally-returning pearsonr call: either the
NaN pair produced on constant input, or a finite (r, p) pair, recorded by
its determining statistics — the sample size and the centered second
moments sxx, sxy, syy (r = sxy/sqrt(sxx*syy) and the two-sided p-value
depend only on these). -/
inductive PearsonOut
  | nanResult
  | res (n : ℕ) (sxx sxy syy : Qv)
  deriving DecidableEq

def centered (l : List Qv) : List Qv :=
  let m := listMean l
  l.map fun x => qSub x m

def dotSum (a b : List Qv) : Qv := listSum (List.zipWith qMul a b)

/-- scipy.stats.pearsonr: raises ValueError when the inputs have fewer
than 2 observations; warns and returns (nan, nan) when either input is
constant; otherwise returns the finite correlation and p-value. -/
def pearsonr (xs ys : List Qv) : Except PyErr PearsonOut :=
  if xs.length < 2 then .error .valueError
  else if allEqHead xs || allEqHead ys then .ok .nanResult
  else .ok (.res xs.length (dotSum (centered xs) (centered xs))
    (dotSum (centered xs) (centered ys)) (dotSum (centered ys) (centered ys)))

/-- Analyzer.compute_pearson: pearsonr on the gdp_per_capita and
life_expectancy columns. -/
def compute_pearson (df : List MergedRecord) : Except PyErr PearsonOut :=
  pearsonr (df.map fun r => r.gdp_per_capita) (df.map fun r => r.life_expectancy)

/-- Observable outcome of a normally-returning ttest_1samp call: the NaN
pair (zero or one observation, or zero variance around a zero mean), an
infinite statistic (zero variance around a nonzero mean), or a finite
(t, p) pair recorded by its determining statistics — sample size, mean
and sample variance (t = mean/sqrt(svar/n), p two-sided with n-1 degrees
of freedom). -/
inductive TtestOut
  | nanResult
  | infResult (sgn : ℤ)
  | tRes (n : ℕ) (mean svar : Qv)
  deriving DecidableEq

/-- scipy.stats.ttest_1samp against popmean 0 (IEEE semantics of
d/sqrt(v/n) with ddof=1 made explicit). -/
def ttest_1samp (d : List Qv) : TtestOut :=
  if d.length ≤ 1 then .nanResult
  else
    let m := listMean d
    let sv := qDiv (listSum (d.map fun x => qMul (qSub x m) (qSub x m))) (qOfNat (d.length - 1))
    if sv = qInt 0 then
      if m = qInt 0 then .nanResult else .infResult (if qLtB (qInt 0) m then 1 else -1)
    else .tRes d.length m sv

/-- Sort key of df_cz.sort_values(by="year"). -/
def byYearLe : MergedRecord → MergedRecord → Prop := fun a b => a.year ≤ b.year

instance : DecidableRel byYearLe := fun a b => inferInstanceAs (Decidable (a.year ≤ b.year))

instance : IsTotal MergedRecord byYearLe := ⟨fun a b => Int.le_total a.year b.year⟩

instance : IsTrans MergedRecord byYearLe := ⟨fun _ _ _ h1 h2 => le_trans h1 h2⟩

/-- df_cz.sort_values(by="year"), rendered by a deterministic (stable)
sort on the year key. -/
def sortByYear (df : List MergedRecord) : List MergedRecord :=
  df.insertionSort byYearLe

/-- le_vals[1:] - le_vals[:-1]. -/
def yoyDiffs (l : List Qv) : List Qv :=
  List.zipWith (fun x y => qSub x y) l.tail l

/-- Analyzer.paired_ttest_czech: sort by year, difference the
life_expectancy column, one-sample t-test against 0.  The call returns
normally for every input (scipy degrades degenerate inputs to NaN). -/
def paired_ttest_czech (df : List MergedRecord) : Except PyErr TtestOut :=
  .ok (ttest_1samp (yoyDiffs ((sortByYear df).map fun r => r.life_expectancy)))

/-- The caller-visible data frame handed to Analyzer.regression_log_gdp:
its rows plus the optional log_gdp column.  Each cell of that column is
recorded by the argument handed to np.log10 (the exact real logarithm is
irrational and plays no role in the frame-mutation claim). -/
structure DFrame where
  rows : List MergedRecord
  logGdpCol : Option (List Qv)
  deriving DecidableEq

/-- Effect of Analyzer.regression_log_gdp on the frame it is handed: the
statement df["log_gdp"] = np.log10(df["gdp_per_capita"]) stores a new
column into that same frame before the OLS fit. -/
def regression_log_gdp_frame (df : DFrame) : DFrame :=
  { df with logGdpCol := some (df.rows.map fun r => r.gdp_per_capita) }

/-! Theorems -/

/-- C1: clean_gdp_cell is total: an absent cell maps to missing, the
exception-explicit rendering always returns normally (never an error),
and every parsing failure yields the missing value, never zero and never
an error halt. -/
theorem clean_gdp_cell_total :
    cleanGdpCell none = none ∧
    (∀ val : Option String, cleanGdpCellE val = .ok (cleanGdpCell val)) ∧
    ∀ s : String, pyFloat (gdpNumStr s) = none →
      cleanGdpCell (some s) = none ∧ cleanGdpCell (some s) ≠ some (qInt 0) := by
  refine ⟨rfl, ?_, ?_⟩
  · intro val
    cases val with
    | none => rfl
    | some v =>
      simp only [cleanGdpCell, cleanGdpCellE]
      by_cases h : endsWithK (pyStrip v.data) = true
      · simp only [h, if_true]
        cases hp : pyFloat (pyStrip (removeCommas (pyStrip v.data).dropLast)) <;> simp [hp]
      · simp only [h, if_false, Bool.not_eq_true] at *
        simp only [h, Bool.false_eq_true, if_false]
        cases hp : pyFloat (pyStrip (removeCommas (pyStrip v.data))) <;> simp [hp]
  · intro s h
    have hmain : cleanGdpCell (some s) = none := by
      simp only [cleanGdpCell]
      unfold gdpNumStr at h
      by_cases hk : endsWithK (pyStrip s.data) = true
      · simp only [hk, if_true] at h ⊢
        rw [h]
      · simp only [hk, Bool.not_eq_true] at *
        simp only [hk, Bool.false_eq_true, if_false] at h ⊢
        rw [h]
    exact ⟨hmain, by rw [hmain]; exact fun hh => Option.noConfusion hh⟩

/-- Closed instance of clean_gdp_cell_total at the concrete cell "abc". -/
theorem clean_gdp_cell_total_witness :
    pyFloat (gdpNumStr sAbc) = none ∧
      cleanGdpCell (some sAbc) = none ∧ cleanGdpCell (some sAbc) ≠ some (qInt 0) :=
  ⟨by decide, clean_gdp_cell_total.2.2 sAbc (by decide)⟩

/-- C2: clean_gdp_cell maps "27.7k" to 27700, "5380" to 5380, "1,234" to
1234, "1.2K" to 1200, and the empty string, an absent cell and "abc" to
missing; in general a trimmed string ending in k/K is parsed with the
suffix stripped and commas removed and the result multiplied by 1000,
and any other string is parsed directly after comma removal. -/
theorem clean_gdp_cell_values :
    cleanGdpCell (some s27k) = some (qInt 27700) ∧
    cleanGdpCell (some s5380) = some (qInt 5380) ∧
    cleanGdpCell (some sComma) = some (qInt 1234) ∧
    cleanGdpCell (some s12K) = some (qInt 1200) ∧
    cleanGdpCell (some sEmpty) = none ∧
    cleanGdpCell none = none ∧
    cleanGdpCell (some sAbc) = none ∧
    (∀ s : String, endsWithK (pyStrip s.data) = true →
      cleanGdpCell (some s) =
        (pyFloat (pyStrip (removeCommas (pyStrip s.data).dropLast))).map fun q => qMul q (qInt 1000)) ∧
    (∀ s : String, endsWithK (pyStrip s.data) = false →
      cleanGdpCell (some s) = pyFloat (pyStrip (removeCommas (pyStrip s.data)))) := by
  refine ⟨by decide, by decide, by decide, by decide, by decide, by decide, by decide, ?_, ?_⟩
  · intro s hk
    simp only [cleanGdpCell, hk, if_true]
    cases hp : pyFloat (pyStrip (removeCommas (pyStrip s.data).dropLast)) <;> simp [hp]
  · intro s hk
    simp only [cleanGdpCell, hk, Bool.false_eq_true, if_false]
    cases hp : pyFloat (pyStrip (removeCommas (pyStrip s.data))) <;> simp [hp]

/-- Closed instances of the two general branch rules of
clean_gdp_cell_values at "1.2K" and "5380". -/
theorem clean_gdp_cell_values_witness :
    (endsWithK (pyStrip s12K.data) = true ∧
      cleanGdpCell (some s12K) =
        (pyFloat (pyStrip (removeCommas (pyStrip s12K.data).dropLast))).map fun q => qMul q (qInt 1000)) ∧
    (endsWithK (pyStrip s5380.data) = false ∧
      cleanGdpCell (some s5380) = pyFloat (pyStrip (removeCommas (pyStrip s5380.data)))) :=
  ⟨⟨by decide, clean_gdp_cell_values.2.2.2.2.2.2.2.1 s12K (by decide)⟩,
   ⟨by decide, clean_gdp_cell_values.2.2.2.2.2.2.2.2 s5380 (by decide)⟩⟩

/-- The five row predicates of filter_2020_data as one conjunction. -/
def keep2020 (r : MergedRecord) : Bool :=
  (r.year == 2020) && qLtB (qInt 0) r.gdp_per_capita && qLtB (qInt 0) r.life_expectancy &&
    qLtB (qInt 10) r.life_expectancy && qLtB r.gdp_per_capita (qInt 1000000)

lemma filter_2020_eq (df : List MergedRecord) :
    filter_2020_data df = df.filter keep2020 := by
  unfold filter_2020_data
  rw [List.filter_filter, List.filter_filter, List.filter_filter]
  apply List.filter_congr
  intro a _
  unfold keep2020
  cases a.year == 2020 <;> cases qLtB (qInt 0) a.gdp_per_capita <;>
    cases qLtB (qInt 0) a.life_expectancy <;> cases qLtB (qInt 10) a.life_expectancy <;>
    cases qLtB a.gdp_per_capita (qInt 1000000) <;> rfl

/-- C3: filter_2020_data keeps exactly the records satisfying all five
predicates conjunctively (year = 2020, gdp > 0, life > 0, life > 10,
gdp < 1e6) and drops every other record. -/
theorem filter_2020_data_spec (df : List MergedRecord) :
    filter_2020_data df = df.filter keep2020 ∧
    ∀ r : MergedRecord,
      r ∈ filter_2020_data df ↔
        r ∈ df ∧ r.year = 2020 ∧ qLtB (qInt 0) r.gdp_per_capita = true ∧
          qLtB (qInt 0) r.life_expectancy = true ∧ qLtB (qInt 10) r.life_expectancy = true ∧
          qLtB r.gdp_per_capita (qInt 1000000) = true := by
  refine ⟨filter_2020_eq df, ?_⟩
  intro r
  rw [filter_2020_eq df, List.mem_filter]
  unfold keep2020
  simp [Bool.and_eq_true, and_assoc]

/-- C9: filter_2020_data is idempotent. -/
theorem filter_2020_data_idempotent (df : List MergedRecord) :
    filter_2020_data (filter_2020_data df) = filter_2020_data df := by
  rw [filter_2020_eq df, filter_2020_eq (df.filter keep2020), List.filter_filter]
  apply List.filter_congr
  intro a _
  cases keep2020 a <;> rfl

lemma mem_keysOfLong {A : List LongRecord} {k : String × ℤ} :
    k ∈ keysOfLong A ↔ ∃ a ∈ A, a.country = k.1 ∧ a.year = k.2 := by
  simp only [keysOfLong, List.mem_map, Prod.ext_iff]

lemma mem_keysOfMerged_merge {A B : List LongRecord} {k : String × ℤ} :
    k ∈ keysOfMerged (merge_datasets A B) ↔
      (∃ a ∈ A, a.country = k.1 ∧ a.year = k.2) ∧ (∃ b ∈ B, b.country = k.1 ∧ b.year = k.2) := by
  simp only [keysOfMerged, merge_datasets, List.mem_map, List.mem_flatMap, List.mem_filter,
    Bool.and_eq_true, beq_iff_eq, Prod.ext_iff]
  constructor
  · rintro ⟨m, ⟨a, ha, b, ⟨hb, hbc, hby⟩, rfl⟩, hc, hy⟩
    exact ⟨⟨a, ha, hc, hy⟩, ⟨b, hb, by rw [hbc]; exact hc, by rw [hby]; exact hy⟩⟩
  · rintro ⟨⟨a, ha, hac, hay⟩, ⟨b, hb, hbc, hby⟩⟩
    exact ⟨⟨a.country, a.year, a.value, b.value⟩,
      ⟨a, ha, b, ⟨hb, by rw [hbc, hac], by rw [hby, hay]⟩, rfl⟩, hac, hay⟩

/-- C4: merge_datasets is an inner join on (country, year): the key set
of the merged output is the intersection of the key sets of the two
inputs, and swapping the inputs leaves the key set unchanged. -/
theorem merge_datasets_inner_join_keys (A B : List LongRecord) (k : String × ℤ) :
    (k ∈ keysOfMerged (merge_datasets A B) ↔ k ∈ keysOfLong A ∧ k ∈ keysOfLong B) ∧
    (k ∈ keysOfMerged (merge_datasets A B) ↔ k ∈ keysOfMerged (merge_datasets B A)) := by
  constructor
  · rw [mem_keysOfMerged_merge, mem_keysOfLong, mem_keysOfLong]
  · rw [mem_keysOfMerged_merge, mem_keysOfMerged_merge]
    tauto

lemma toYearRows_ok_count {α : Type} (f : Option α → Option Qv) :
    ∀ (l : List (String × String × Option α)) (r : List (String × ℤ × Option α)),
      toYearRows l = .ok r →
      (r.filterMap fun c => (f c.2.2).map fun v => (⟨c.1, c.2.1, v⟩ : LongRecord)).length
        = (l.filter fun c => (f c.2.2).isSome).length := by
  intro l
  induction l with
  | nil =>
    intro r h
    simp only [toYearRows] at h
    cases h
    rfl
  | cons c t ih =>
    intro r h
    simp only [toYearRows] at h
    cases hp : parsePyInt c.2.1.data with
    | none => rw [hp] at h; exact absurd h (by simp)
    | some y =>
      rw [hp] at h
      cases ht : toYearRows t with
      | error e => rw [ht] at h; exact absurd h (by simp)
      | ok rt =>
        rw [ht] at h
        cases h
        rw [List.filterMap_cons, List.filter_cons]
        cases hf : f c.2.2 with
        | none => simp [hf, ih rt ht]
        | some v => simp [hf, ih rt ht]

/-- C8: melting is lossless for present cells: whenever the melt
succeeds (all year labels coercible), the number of long records equals
the number of non-missing cells of the wide input — for the GDP melt a
cell counts as missing exactly when clean_gdp_cell maps it to missing,
matching the data model's parsing invariant. -/
theorem melt_length_eq_present_cells :
    (∀ (t : WideTable Qv) (out : List LongRecord),
        melt_life_expectancy t = .ok out → out.length = lifePresentCount t) ∧
    (∀ (t : WideTable String) (out : List LongRecord),
        melt_gdp_per_capita t = .ok out → out.length = gdpPresentCount t) := by
  constructor
  · intro t out h
    unfold melt_life_expectancy at h
    cases ht : toYearRows (meltPairs t) with
    | error e => rw [ht] at h; exact absurd h (by simp)
    | ok l =>
      rw [ht] at h
      cases h
      exact toYearRows_ok_count (fun o => o) (meltPairs t) l ht
  · intro t out h
    unfold melt_gdp_per_capita at h
    cases ht : toYearRows (meltPairs t) with
    | error e => rw [ht] at h; exact absurd h (by simp)
    | ok l =>
      rw [ht] at h
      cases h
      exact toYearRows_ok_count cleanGdpCell (meltPairs t) l ht

def czechia : String := "Czechia"

def y2000 : String := "2000"

def y2001 : String := "2001"

/-- Tiny life-expectancy wide table: one country, one present cell and
one absent cell. -/
def tLife : WideTable Qv := ⟨[y2000, y2001], [(czechia, [some (qInt 75), none])]⟩

/-- Tiny GDP wide table: one country, one parseable suffixed cell. -/
def tGdp : WideTable String := ⟨[y2000], [(czechia, [some s27k])]⟩

/-- Closed instances of melt_length_eq_present_cells on concrete wide
tables. -/
theorem melt_length_eq_present_cells_witness :
    ([(⟨czechia, 2000, qInt 75⟩ : LongRecord)]).length = lifePresentCount tLife ∧
    ([(⟨czechia, 2000, qInt 27700⟩ : LongRecord)]).length = gdpPresentCount tGdp :=
  ⟨melt_length_eq_present_cells.1 tLife [⟨czechia, 2000, qInt 75⟩] (by rfl),
   melt_length_eq_present_cells.2 tGdp [⟨czechia, 2000, qInt 27700⟩] (by rfl)⟩

def nA : String := "A"

def nB : String := "B"

/-- Two records with a constant gdp_per_capita column. -/
def dfConst : List MergedRecord := [⟨nA, 2020, qInt 70, qInt 5⟩, ⟨nB, 2020, qInt 80, qInt 5⟩]

/-- C6 counterexample: on a two-record slice whose gdp_per_capita column
is constant, compute_pearson returns normally with the NaN result — it
does not fail at all, contradicting the claim that a constant column
fails with InsufficientData. -/
theorem compute_pearson_constant_no_failure :
    allEqHead (dfConst.map fun r => r.gdp_per_capita) = true ∧
    dfConst.length = 2 ∧
    compute_pearson dfConst = .ok PearsonOut.nanResult :=
  ⟨by decide, rfl, rfl⟩

/-- C6 amended: compute_pearson fails (with the scipy ValueError, the
only failure it can raise) exactly when the slice has fewer than 2
records; on 2 or more records it returns the NaN pair exactly when one of
the two columns is constant, and a finite (r, p) result otherwise. -/
theorem compute_pearson_error_iff (df : List MergedRecord) :
    ((∃ e, compute_pearson df = .error e) ↔ df.length < 2) ∧
    (2 ≤ df.length →
      (compute_pearson df = .ok PearsonOut.nanResult ↔
        (allEqHead (df.map fun r => r.gdp_per_capita) = true ∨
         allEqHead (df.map fun r => r.life_expectancy) = true))) := by
  unfold compute_pearson pearsonr
  rw [List.length_map]
  by_cases h : df.length < 2
  · rw [if_pos h]
    constructor
    · simp [h]
    · intro h2
      omega
  · rw [if_neg h]
    constructor
    · constructor
      · rintro ⟨e, he⟩
        by_cases hc : (allEqHead (df.map fun r => r.gdp_per_capita) ||
            allEqHead (df.map fun r => r.life_expectancy)) = true
        · rw [if_pos hc] at he
          exact absurd he (by simp)
        · rw [if_neg hc] at he
          exact absurd he (by simp)
      · intro h2
        omega
    · intro _
      by_cases hc : (allEqHead (df.map fun r => r.gdp_per_capita) ||
          allEqHead (df.map fun r => r.life_expectancy)) = true
      · rw [if_pos hc]
        simp only [Bool.or_eq_true] at hc
        simp [hc]
      · rw [if_neg hc]
        simp only [Bool.or_eq_true, not_or, Bool.not_eq_true] at hc
        constructor
        · intro he
          exact absurd he (by simp)
        · rintro (h1 | h1)
          · simp [hc.1] at h1
          · simp [hc.2] at h1

/-- Two records with both columns non-constant. -/
def dfVar : List MergedRecord := [⟨nA, 2020, qInt 70, qInt 5⟩, ⟨nB, 2020, qInt 80, qInt 9⟩]

/-- Closed instance of compute_pearson_error_iff at a concrete
two-record slice. -/
theorem compute_pearson_error_iff_witness :
    compute_pearson dfVar = .ok PearsonOut.nanResult ↔
      (allEqHead (dfVar.map fun r => r.gdp_per_capita) = true ∨
       allEqHead (dfVar.map fun r => r.life_expectancy) = true) :=
  (compute_pearson_error_iff dfVar).2 (by decide)

def czName : String := "Czech Republic"

/-- Two Czech records: one year-over-year difference only. -/
def dfCz2 : List MergedRecord :=
  [⟨czName, 2000, qInt 75, qInt 15000⟩, ⟨czName, 2001, qDiv (qInt 151) (qInt 2), qInt 15750⟩]

/-- C7 counterexample: on a two-record input (a single difference),
paired_ttest_czech returns normally with the NaN result — it does not
fail, contradicting the claim that fewer than 2 differences fails with
InsufficientData. -/
theorem paired_ttest_short_input_no_failure :
    dfCz2.length = 2 ∧ paired_ttest_czech dfCz2 = .ok TtestOut.nanResult :=
  ⟨rfl, rfl⟩

/-- C7 amended: paired_ttest_czech sorts its records ascending by year,
differences consecutive life_expectancy values and runs a one-sample
test of zero mean on the differences; with fewer than 2 differences
(fewer than 3 records) it returns the NaN pair normally instead of
failing. -/
theorem paired_ttest_diffs_and_nan (df : List MergedRecord) :
    paired_ttest_czech df =
      .ok (ttest_1samp (yoyDiffs ((sortByYear df).map fun r => r.life_expectancy))) ∧
    (df.length < 3 → paired_ttest_czech df = .ok TtestOut.nanResult) := by
  refine ⟨rfl, ?_⟩
  intro h
  have hlen : ((sortByYear df).map fun r => r.life_expectancy).length = df.length := by
    rw [List.length_map]
    exact (List.perm_insertionSort byYearLe df).length_eq
  have hd : (yoyDiffs ((sortByYear df).map fun r => r.life_expectancy)).length ≤ 1 := by
    unfold yoyDiffs
    rw [List.length_zipWith, List.length_tail, hlen]
    omega
  unfold paired_ttest_czech ttest_1samp
  rw [if_pos hd]

/-- Closed instance of paired_ttest_diffs_and_nan at a concrete
two-record input. -/
theorem paired_ttest_diffs_and_nan_witness :
    paired_ttest_czech dfCz2 = .ok TtestOut.nanResult :=
  (paired_ttest_diffs_and_nan dfCz2).2 (by decide)

lemma sorted_perm_eq_of_nodup_keys :
    ∀ {l₁ l₂ : List MergedRecord}, l₁.Perm l₂ → l₁.Sorted byYearLe → l₂.Sorted byYearLe →
      (l₁.map fun r => r.year).Nodup → l₁ = l₂ := by
  intro l₁
  induction l₁ with
  | nil =>
    intro l₂ hp _ _ _
    cases l₂ with
    | nil => rfl
    | cons b t2 => exact absurd hp.length_eq (by simp)
  | cons a t ih =>
    intro l₂ hp hs1 hs2 hn
    cases l₂ with
    | nil => exact absurd hp.length_eq (by simp)
    | cons b t2 =>
      have hab : a ∈ b :: t2 := hp.subset (List.mem_cons_self a t)
      have hba : b ∈ a :: t := hp.symm.subset (List.mem_cons_self b t2)
      have h1 : a.year ≤ b.year := by
        rcases List.mem_cons.mp hba with h | h
        · exact le_of_eq (by rw [h])
        · exact (List.sorted_cons.mp hs1).1 b h
      have h2 : b.year ≤ a.year := by
        rcases List.mem_cons.mp hab with h | h
        · exact le_of_eq (by rw [h])
        · exact (List.sorted_cons.mp hs2).1 a h
      have hae : a = b :=
        List.inj_on_of_nodup_map hn (List.mem_cons_self a t) hba (le_antisymm h1 h2)
      subst hae
      rw [ih hp.cons_inv hs1.of_cons hs2.of_cons hn.of_cons]

def rowCz1 : MergedRecord := ⟨czName, 2000, qInt 75, qInt 1000⟩

def rowCz2 : MergedRecord := ⟨czName, 2000, qInt 80, qInt 1000⟩

def rowCz3 : MergedRecord := ⟨czName, 2001, qInt 77, qInt 1000⟩

def czA : List MergedRecord := [rowCz1, rowCz2, rowCz3]

def czB : List MergedRecord := [rowCz2, rowCz1, rowCz3]

/-- C10 counterexample: czA and czB are row-permutations of each other
(two rows share the year 2000), yet paired_ttest_czech yields different
(t, p) outcomes on them — the result is not invariant under every
permutation of the input rows. -/
theorem paired_ttest_not_permutation_invariant :
    czA.Perm czB ∧ paired_ttest_czech czA ≠ paired_ttest_czech czB := by
  constructor
  · exact List.Perm.swap rowCz2 rowCz1 [rowCz3]
  · intro h
    have h1 : paired_ttest_czech czA = .ok (TtestOut.tRes 2 (qInt 1) (qInt 32)) := rfl
    have h2 : paired_ttest_czech czB =
        .ok (TtestOut.tRes 2 (qDiv (qInt (-3)) (qInt 2)) (qDiv (qInt 49) (qInt 2))) := rfl
    rw [h1, h2] at h
    injection h with h3
    exact absurd h3 (by decide)

/-- C10 amended: paired_ttest_czech is invariant under permutations of
its input rows whenever no two rows share a year (the internal sort then
determines a unique order); with duplicate years the tie order, and hence
the result, can differ between permutations. -/
theorem paired_ttest_perm_invariant_of_nodup_years (l₁ l₂ : List MergedRecord)
    (hp : l₁.Perm l₂) (hn : (l₁.map fun r => r.year).Nodup) :
    paired_ttest_czech l₁ = paired_ttest_czech l₂ := by
  have hs : sortByYear l₁ = sortByYear l₂ := by
    apply sorted_perm_eq_of_nodup_keys
    · exact (List.perm_insertionSort byYearLe l₁).trans
        (hp.trans (List.perm_insertionSort byYearLe l₂).symm)
    · exact List.sorted_insertionSort byYearLe l₁
    · exact List.sorted_insertionSort byYearLe l₂
    · exact (((List.perm_insertionSort byYearLe l₁).map fun r => r.year).nodup_iff).mpr hn
  unfold paired_ttest_czech
  rw [hs]

def w2005 : MergedRecord := ⟨czName, 2005, qInt 76, qInt 20000⟩

def w2006 : MergedRecord := ⟨czName, 2006, qDiv (qInt 153) (qInt 2), qInt 21000⟩

/-- Closed instance of paired_ttest_perm_invariant_of_nodup_years at a
concrete two-record input with distinct years. -/
theorem paired_ttest_perm_invariant_witness :
    paired_ttest_czech [w2005, w2006] = paired_ttest_czech [w2006, w2005] :=
  paired_ttest_perm_invariant_of_nodup_years [w2005, w2006] [w2006, w2005]
    (List.Perm.swap w2006 w2005 []) (by decide)

/-- A one-row filtered slice, without a log_gdp column, as handed to
regression_log_gdp by the pipeline. -/
def sliceCz : DFrame := ⟨[⟨czechia, 2020, qDiv (qInt 793) (qInt 10), qInt 44000⟩], none⟩

/-- C5: the claim that no pipeline operation mutates its input fails on
regression_log_gdp, which stores a log_gdp column into the frame it is
handed: evaluated at a concrete one-row slice, the caller-visible frame
after the call differs from the frame before it. -/
theorem regression_log_gdp_mutates_frame :
    regression_log_gdp_frame sliceCz ≠ sliceCz := by decide

end StatProj
